import Mathlib

/-!
Shallow embedding of the BlackRoad SDK request executor, translated from
`src/go/client.go` and `src/go/errors.go` (package `blackroad`).  The Go
client is the variant every claim cites; the Ruby/JS facades delegate to
the same executor shape.

Modelling conventions:
* Go `int` values that the code may make negative (`MaxRetries`) are `Int`.
* `time.Duration` is an `Int` number of nanoseconds (`timeSecond = 1e9`).
* The environment (`os.Getenv`) is a total function `String → String`
  returning `""` for unset variables, exactly the Go behaviour.
* The HTTP transport is a `responder : Nat → AttemptOutcome` giving, for
  each attempt index, what `httpClient.Do` + `io.ReadAll` produce.
* Executors return a trace of observable events (request sends with the
  body bytes actually transmitted, and sleeps with their duration in
  seconds) together with the Go function's return value.
-/

namespace Blackroad

/-- The error values of `src/go/errors.go`, as one tagged variant.
`api` is the plain `&Error{Message, Code, StatusCode}` struct; the typed
wrappers (`AuthenticationError` etc.) carry the same data plus their extra
field.  The `Cause error` field of `ConnectionError` wraps the transport
exception and is outside the model (only its presence matters, never its
value), so `connection` keeps the message alone. -/
inductive GoError where
  | authentication (message : String)
  | notFound (resource : String)
  | rateLimit (retryAfter : Int)
  | validation (details : String)
  | connection (message : String)
  | api (message : String) (code : String) (statusCode : Nat)
deriving Repr, DecidableEq

/-- Value of `time.Second` in nanoseconds (`time.Duration` is an int64 nanosecond
count in Go). -/
def timeSecond : Int := 1000000000

/-- Constant `defaultBaseURL` from client.go. -/
def defaultBaseURL : String := "https://api.blackroad.io/v1"

/-- Constant `defaultTimeout = 30 * time.Second` from client.go. -/
def defaultTimeout : Int := 30 * timeSecond

/-- Constant `defaultMaxRetries` from client.go. -/
def defaultMaxRetries : Int := 3

/-- Struct `ClientConfig` from client.go (the `HTTPClient` field injects the
transport and is represented by the responder argument of `request`). -/
structure ClientConfig where
  APIKey : String
  BaseURL : String
  Timeout : Int
  MaxRetries : Int
deriving Repr, DecidableEq

/-- The resolved fields a `Client` stores after `NewClient`. -/
structure Client where
  apiKey : String
  baseURL : String
  timeout : Int
  maxRetries : Int
deriving Repr, DecidableEq

/-- Function `strings.HasSuffix`.  Go compares the UTF-8 bytes; on the character
lists this is the same relation, since a byte-level suffix that is itself
a valid UTF-8 encoding always falls on a character boundary. -/
def goHasSuffix (s suffix : String) : Bool :=
  suffix.data.isSuffixOf s.data

/-- Function `strings.HasPrefix`, likewise on the character lists. -/
def goHasPrefix (s pre : String) : Bool :=
  pre.data.isPrefixOf s.data

/-- Function `strings.TrimSuffix(s, suffix)`: drop `suffix` from the end of `s` if
present, once (`s[:len(s)-len(suffix)]`). -/
def stringsTrimSuffix (s suffix : String) : String :=
  if goHasSuffix s suffix then
    ⟨s.data.take (s.data.length - suffix.data.length)⟩
  else s

/-- Function `strings.TrimPrefix(s, prefix)`: drop the prefix from the front of `s`
if present, once (`s[len(prefix):]`). -/
def stringsTrimPrefix (s pre : String) : String :=
  if goHasPrefix s pre then ⟨s.data.drop pre.data.length⟩ else s

/-- The base-URL selection chain of `NewClient` before normalization:
explicit `config.BaseURL`, else `BLACKROAD_API_URL`, else the default. -/
def pickBaseURL (env : String → String) (config : ClientConfig) : String :=
  let baseURL := config.BaseURL
  let baseURL := if baseURL = "" then env "BLACKROAD_API_URL" else baseURL
  if baseURL = "" then defaultBaseURL else baseURL

/-- Function `NewClient` from client.go: resolve the API key (explicit, else
`BLACKROAD_API_KEY`, failing with an `AuthenticationError` when both are
empty), the base URL (explicit, else `BLACKROAD_API_URL`, else default,
then `strings.TrimSuffix(baseURL, "/")`), the timeout (explicit unless
zero, else 30s) and the retry budget (explicit unless zero, else 3).
A nil `*ClientConfig` in Go is the zero struct, i.e. all fields empty. -/
def NewClient (env : String → String) (config : ClientConfig) :
    Except GoError Client :=
  let apiKey := config.APIKey
  let apiKey := if apiKey = "" then env "BLACKROAD_API_KEY" else apiKey
  if apiKey = "" then
    .error (.authentication
      "API key required. Set BLACKROAD_API_KEY environment variable or pass APIKey in config.")
  else
    let baseURL := stringsTrimSuffix (pickBaseURL env config) "/"
    let timeout := if config.Timeout = 0 then defaultTimeout else config.Timeout
    let maxRetries :=
      if config.MaxRetries = 0 then defaultMaxRetries else config.MaxRetries
    .ok { apiKey := apiKey, baseURL := baseURL, timeout := timeout,
          maxRetries := maxRetries }

/-! ### Query serialization (`url.Values.Encode`, `net/url.QueryEscape`) -/

/-- Upper-case hex digit, as `"%02X"` formatting uses. -/
def upperHexDigit (n : Nat) : Char :=
  "0123456789ABCDEF".data.getD n '0'

/-- Escape one byte per the `net/url` function `shouldEscape` in query-component
mode: ASCII alphanumerics and `-`, `_`, `.`, `~` pass through, a space
becomes `+`, every other byte becomes `%XX` with upper-case hex. -/
def queryEscapeByte (b : Nat) : String :=
  if (48 ≤ b ∧ b ≤ 57) ∨ (65 ≤ b ∧ b ≤ 90) ∨ (97 ≤ b ∧ b ≤ 122) then
    String.singleton (Char.ofNat b)
  else if b = 45 ∨ b = 95 ∨ b = 46 ∨ b = 126 then
    String.singleton (Char.ofNat b)
  else if b = 32 then "+"
  else "%" ++ String.singleton (upperHexDigit (b / 16)) ++
    String.singleton (upperHexDigit (b % 16))

/-- The UTF-8 bytes of a string, as naturals.  This is the byte list of
`String.toUTF8` (whose body is `s.data.flatMap utf8EncodeChar`), kept in
`List Nat` form so concrete instances reduce. -/
def utf8Bytes (s : String) : List Nat :=
  (s.data.flatMap String.utf8EncodeChar).map (fun b => b.toNat)

/-- Function `url.QueryEscape`: escape each byte of the UTF-8 encoding. -/
def queryEscape (s : String) : String :=
  (utf8Bytes s).foldl (fun acc b => acc ++ queryEscapeByte b) ""

/-- Lexicographic byte-order `<` on byte lists, the Go `string` comparison. -/
def bytesLess : List Nat → List Nat → Bool
  | [], [] => false
  | [], _ :: _ => true
  | _ :: _, [] => false
  | x :: xs, y :: ys =>
    if x < y then true else if y < x then false else bytesLess xs ys

/-- Go `a < b` on strings: lexicographic order on the UTF-8 bytes. -/
def goStringLess (a b : String) : Bool :=
  bytesLess (utf8Bytes a) (utf8Bytes b)

/-- Insert into an ascending list (by Go string order). -/
def insertSorted (x : String) : List String → List String
  | [] => [x]
  | y :: ys => if goStringLess y x then y :: insertSorted x ys else x :: y :: ys

/-- Function `sort.Strings`: the keys in ascending lexicographic byte order.
`url.Values` is a Go map, so `Encode` sorts the key set; for the unique
keys a `RequestSpec` carries this is the unique sorted arrangement. -/
def sortStrings (l : List String) : List String := l.foldr insertSorted []

/-- Type `url.Values` with its insertion order remembered: an association
list from key to the value list (keys unique per the RequestSpec data
model; the underlying Go map forgets the order). -/
abbrev Values := List (String × List String)

/-- Method `url.Values.Encode`: sort the keys, then emit `k=v` pairs joined by
`&`, escaping keys and values with `QueryEscape`. -/
def valuesEncode (v : Values) : String :=
  let keys := sortStrings (v.map Prod.fst)
  keys.foldl (fun buf k =>
    let vs := (v.lookup k).getD []
    let keyEscaped := queryEscape k
    vs.foldl (fun buf w =>
      let buf := if buf.length > 0 then buf ++ "&" else buf
      buf ++ keyEscaped ++ "=" ++ queryEscape w) buf) ""

/-- The URL construction at the top of `request` (client.go:123–127):
`baseURL + "/" + TrimPrefix(endpoint, "/")`, then `"?" + params.Encode()`
when params is non-empty. -/
def buildURL (baseURL endpoint : String) (params : Values) : String :=
  let fullURL := baseURL ++ "/" ++ stringsTrimPrefix endpoint "/"
  if params.length > 0 then fullURL ++ "?" ++ valuesEncode params else fullURL

/-! ### The retry loop of `Client.request` (client.go:129–199) -/

/-- Function `strconv.Atoi`: an optional sign followed by at least one decimal
digit, nothing else, rejecting values outside the int64 range (the Go
`Atoi` call returns a non-nil error on `ErrRange`, which the caller treats
the same as a parse failure). -/
def goAtoi (s : String) : Option Int :=
  let cs := s.data
  let signed : Bool × List Char :=
    match cs with
    | '+' :: rest => (false, rest)
    | '-' :: rest => (true, rest)
    | rest => (false, rest)
  let neg := signed.1
  let digits := signed.2
  if digits.isEmpty then none
  else if digits.all (fun c => c.isDigit) then
    let n : Nat := digits.foldl (fun acc c => acc * 10 + (c.toNat - 48)) 0
    if neg then
      if n ≤ 2 ^ 63 then some (-(n : Int)) else none
    else
      if n < 2 ^ 63 then some (n : Int) else none
  else none

/-- The `Retry-After` handling of the 429 case: `resp.Header.Get`
returns `""` for an absent header; start from 1 and overwrite with the
parsed value only when the header is non-empty and `Atoi` succeeds. -/
def parseRetryAfter (header : Option String) : Int :=
  let ra := header.getD ""
  if ra ≠ "" then
    match goAtoi ra with
    | some parsed => parsed
    | none => 1
  else 1

/-- What the `httpClient.Do` + `io.ReadAll` calls of one attempt produce:
a transport error from `Do`, a read error from `ReadAll`, or a response
with its status, `Retry-After` header (`none` = absent) and body. -/
inductive AttemptOutcome where
  | transportError
  | readError
  | response (status : Nat) (retryAfterHeader : Option String) (body : String)
deriving Repr, DecidableEq

/-- The observable events of one `request` call: the send of each attempt
(with the body bytes the exhausted-or-not `bytes.Reader` still holds at
that point) and each `time.Sleep` (in seconds). -/
inductive Event where
  | send (attempt : Nat) (bodyBytes : String)
  | sleep (seconds : Int)
deriving Repr, DecidableEq

/-- Reinterpret `1 << attempt` (and any Go int64 expression) with 64-bit
two's-complement wrap-around. -/
def goInt64 (x : Int) : Int := (x + 2 ^ 63) % 2 ^ 64 - 2 ^ 63

/-- The `for attempt := 0; attempt < c.maxRetries; attempt++` loop of
`Client.request`.  `reader` is the unread remainder of the single
`bytes.Reader` built from the marshalled body before the loop: a request
that reaches the server (any `response` or `readError` outcome) has
fully transmitted — and thereby consumed — the reader, while a transport
failure such as a refused connection leaves it untouched.  Each `send`
event records the body bytes available to that attempt.  `lastErr`
accumulates exactly as in the Go code; falling out of the loop yields
`lastErr` when set, else the bare `&Error{Message: "max retries
exceeded"}`. -/
def requestLoop (maxRetries : Int) (endpoint : String)
    (responder : Nat → AttemptOutcome) (attempt : Nat) (reader : String)
    (lastErr : Option GoError) : List Event × Except GoError String :=
  if h : (attempt : Int) < maxRetries then
    match responder attempt with
    | .transportError =>
      let rest := requestLoop maxRetries endpoint responder (attempt + 1)
        reader (some (.connection "request failed"))
      (.send attempt reader :: .sleep (goInt64 (2 ^ attempt)) :: rest.1, rest.2)
    | .readError =>
      let rest := requestLoop maxRetries endpoint responder (attempt + 1)
        "" (some (.connection "failed to read response"))
      (.send attempt reader :: rest.1, rest.2)
    | .response status retryAfterHeader body =>
      if 200 ≤ status ∧ status < 300 then
        ([.send attempt reader], .ok body)
      else if status = 401 then
        ([.send attempt reader], .error (.authentication "invalid API key"))
      else if status = 404 then
        ([.send attempt reader], .error (.notFound endpoint))
      else if status = 422 then
        ([.send attempt reader], .error (.validation body))
      else if status = 429 then
        let retryAfter := parseRetryAfter retryAfterHeader
        if (attempt : Int) < maxRetries - 1 then
          let rest := requestLoop maxRetries endpoint responder (attempt + 1)
            "" lastErr
          (.send attempt reader :: .sleep retryAfter :: rest.1, rest.2)
        else
          ([.send attempt reader], .error (.rateLimit retryAfter))
      else
        let rest := requestLoop maxRetries endpoint responder (attempt + 1)
          "" (some (.api ("API error: " ++ body) "API_ERROR" status))
        (.send attempt reader :: rest.1, rest.2)
  else
    ([], .error (lastErr.getD (.api "max retries exceeded" "" 0)))
termination_by (maxRetries - (attempt : Int)).toNat
decreasing_by all_goals omega

/-- Function `Client.request`: `jsonBody` is the marshalled body (`none` for a
nil body, in which case no reader exists and every attempt offers empty
body bytes).  The loop starts at attempt 0 with no `lastErr`. -/
def request (maxRetries : Int) (endpoint : String) (jsonBody : Option String)
    (responder : Nat → AttemptOutcome) : List Event × Except GoError String :=
  requestLoop maxRetries endpoint responder 0 (jsonBody.getD "") none

/-- The attempts actually made in a trace: pairs of attempt index and
the body bytes offered to that attempt. -/
def sendsOf (t : List Event) : List (Nat × String) :=
  t.filterMap fun e =>
    match e with
    | .send n b => some (n, b)
    | .sleep _ => none

/-- The sleeps performed in a trace, in seconds, in order. -/
def sleepsOf (t : List Event) : List Int :=
  t.filterMap fun e =>
    match e with
    | .send _ _ => none
    | .sleep s => some s

/-! ### Witness fixtures -/

def sampleEnv : String → String := fun _ => ""

def sampleConfig : ClientConfig :=
  { APIKey := "k", BaseURL := "", Timeout := 0, MaxRetries := 0 }

def sampleClient : Client :=
  { apiKey := "k", baseURL := defaultBaseURL, timeout := 30 * timeSecond,
    maxRetries := 3 }

def negRetryConfig : ClientConfig :=
  { APIKey := "k", BaseURL := "", Timeout := 0, MaxRetries := -1 }

def negRetryClient : Client :=
  { apiKey := "k", baseURL := defaultBaseURL, timeout := 30 * timeSecond,
    maxRetries := -1 }

/-! ### Helper lemmas shared by the claim theorems -/

theorem sendsOf_nil : sendsOf [] = [] := rfl

theorem sendsOf_send (n : Nat) (b : String) (t : List Event) :
    sendsOf (.send n b :: t) = (n, b) :: sendsOf t := rfl

theorem sendsOf_sleep (s : Int) (t : List Event) :
    sendsOf (.sleep s :: t) = sendsOf t := rfl

theorem sleepsOf_nil : sleepsOf [] = [] := rfl

theorem sleepsOf_send (n : Nat) (b : String) (t : List Event) :
    sleepsOf (.send n b :: t) = sleepsOf t := rfl

theorem sleepsOf_sleep (s : Int) (t : List Event) :
    sleepsOf (.sleep s :: t) = s :: sleepsOf t := rfl

/-- Successful construction pins every resolved field: the client is the
record the `NewClient` resolution chain computes. -/
theorem NewClient_ok_fields (env : String → String) (config : ClientConfig)
    (c : Client) (h : NewClient env config = .ok c) :
    c = { apiKey := if config.APIKey = "" then env "BLACKROAD_API_KEY" else config.APIKey,
          baseURL := stringsTrimSuffix (pickBaseURL env config) "/",
          timeout := if config.Timeout = 0 then defaultTimeout else config.Timeout,
          maxRetries := if config.MaxRetries = 0 then defaultMaxRetries else config.MaxRetries } := by
  by_cases hk : (if config.APIKey = "" then env "BLACKROAD_API_KEY" else config.APIKey) = ""
  · simp [NewClient, hk] at h
  · simp [NewClient, hk] at h
    exact h.symm

/-- The loop under a responder that always yields a status the switch
sends to its default arm: every remaining attempt runs, and the final
result is the accumulated generic API error. -/
theorem requestLoop_default_all (mr : Int) (endpoint body : String) (status : Nat)
    (h2xx : ¬ (200 ≤ status ∧ status < 300)) (h401 : status ≠ 401)
    (h404 : status ≠ 404) (h422 : status ≠ 422) (h429 : status ≠ 429) :
    ∀ (n : Nat) (attempt : Nat) (reader : String) (lastErr : Option GoError),
      (mr - (attempt : Int)).toNat = n → (attempt : Int) < mr →
      (sendsOf (requestLoop mr endpoint (fun _ => .response status none body)
          attempt reader lastErr).1).length = n ∧
      (requestLoop mr endpoint (fun _ => .response status none body)
          attempt reader lastErr).2 =
        .error (.api ("API error: " ++ body) "API_ERROR" status) := by
  intro n
  induction n with
  | zero =>
    intro attempt reader lastErr hn hlt
    omega
  | succ k ih =>
    intro attempt reader lastErr hn hlt
    rw [requestLoop.eq_def, dif_pos hlt]
    simp only [h2xx, h401, h404, h422, h429, if_false, if_neg]
    by_cases hlt2 : ((attempt + 1 : Nat) : Int) < mr
    · have ih2 := ih (attempt + 1) ""
        (some (.api ("API error: " ++ body) "API_ERROR" status)) (by omega) hlt2
      simpa [sendsOf_send] using ih2
    · have hk0 : k = 0 := by omega
      subst hk0
      rw [requestLoop.eq_def, dif_neg hlt2]
      simp [sendsOf_send, sendsOf_nil]

/-! ### Claim theorems -/


/-- C1 counterexample: with maxRetries 3 and every attempt answered by
status 500, the executor does not stop at the first attempt as the claim
states: it performs three attempts (the switch default arm only records
the Api error and lets the loop continue). -/
theorem c1_counterexample :
    (sendsOf (request 3 "/agents" none
        (fun _ => .response 500 none "backend down")).1).length = 3 ∧
    (request 3 "/agents" none (fun _ => .response 500 none "backend down")).2 =
      .error (.api "API error: backend down" "API_ERROR" 500) ∧
    (sendsOf (request 3 "/agents" none
        (fun _ => .response 500 none "backend down")).1).length ≠ 1 := by
  refine ⟨?_, ?_, ?_⟩ <;>
    simp [request, requestLoop, sendsOf]

/-- C1 amended: a response whose status is non-2xx and none of
401/404/422/429 is recorded as an Api(status, body) error and retried;
when every attempt yields such a response the executor performs exactly
maxAttempts attempts and returns the Api error of the final attempt. -/
theorem c1_api_statuses_retried (mr : Int) (hmr : 0 < mr)
    (endpoint body : String) (status : Nat)
    (h2xx : ¬ (200 ≤ status ∧ status < 300)) (h401 : status ≠ 401)
    (h404 : status ≠ 404) (h422 : status ≠ 422) (h429 : status ≠ 429)
    (jsonBody : Option String) :
    (sendsOf (request mr endpoint jsonBody
        (fun _ => .response status none body)).1).length = mr.toNat ∧
    (request mr endpoint jsonBody (fun _ => .response status none body)).2 =
      .error (.api ("API error: " ++ body) "API_ERROR" status) := by
  have h0 : ((0 : Nat) : Int) < mr := by exact_mod_cast hmr
  have hmain := requestLoop_default_all mr endpoint body status h2xx h401 h404
    h422 h429 mr.toNat 0 (jsonBody.getD "") none (by omega) h0
  simpa [request] using hmain

/-- C1 witness: the amended statement at maxRetries 3 and constant
status 503. -/
theorem c1_api_statuses_retried_witness :
    (sendsOf (request 3 "/tasks" (some "task-payload")
        (fun _ => .response 503 none "overloaded")).1).length = 3 ∧
    (request 3 "/tasks" (some "task-payload")
        (fun _ => .response 503 none "overloaded")).2 =
      .error (.api "API error: overloaded" "API_ERROR" 503) :=
  c1_api_statuses_retried 3 (by decide) "/tasks" "overloaded" 503 (by decide)
    (by decide) (by decide) (by decide) (by decide) (some "task-payload")

/-- C2: the marshalled body is wrapped in a single bytes.Reader outside
the retry loop, and a served attempt (here a 429) consumes it; the retry
then re-creates the request from the exhausted reader and transmits an
empty body, so the attempts do not send identical bytes. -/
theorem c2_retry_sends_empty_body :
    sendsOf (request 3 "/tasks" (some "dispatch-payload")
        (fun n => if n = 0 then .response 429 none "slow down"
                  else .response 200 none "ok")).1 =
      [(0, "dispatch-payload"), (1, "")] ∧
    ("dispatch-payload" : String) ≠ "" := by
  refine ⟨?_, by decide⟩
  simp [request, requestLoop, sendsOf, parseRetryAfter]

/-- C3 counterexample: url.Values.Encode sorts the keys, so the pair
inserted as status-then-limit serializes with limit first, not in
insertion order as the claim states. -/
theorem c3_counterexample :
    valuesEncode [("status", ["pending"]), ("limit", ["10"])] =
      "limit=10&status=pending" ∧
    "limit=10&status=pending" ≠ "status=pending&limit=10" := by
  exact ⟨by decide, by decide⟩

/-- C3 amended: the serialized query string lists the keys in ascending
lexicographic order regardless of insertion order, and both example
values appear verbatim (escaping alters neither "pending" nor "10"). -/
theorem c3_sorted_keys :
    valuesEncode [("status", ["pending"]), ("limit", ["10"])] =
      "limit=10&status=pending" ∧
    valuesEncode [("limit", ["10"]), ("status", ["pending"])] =
      "limit=10&status=pending" ∧
    sortStrings ["status", "limit"] = ["limit", "status"] ∧
    queryEscape "pending" = "pending" ∧
    queryEscape "10" = "10" := by
  refine ⟨by decide, by decide, by decide, by decide, by decide⟩

/-- C4: on a transport failure the code sleeps 2 to the power of the
attempt index seconds and then re-enters the loop, with no guard on the
final attempt: for maxRetries 3 the full trace is send, sleep 1, send,
sleep 2, send, sleep 4 — three attempts, a Connection terminal error,
but also a sleep after the final attempt, contrary to the claim. -/
theorem c4_transport_failure_trace :
    request 3 "/agents/alpha" none (fun _ => .transportError) =
      ([.send 0 "", .sleep 1, .send 1 "", .sleep 2, .send 2 "", .sleep 4],
        .error (.connection "request failed")) ∧
    sleepsOf [Event.send 0 "", .sleep 1, .send 1 "", .sleep 2, .send 2 "",
        .sleep 4] = [1, 2, 4] ∧
    (sendsOf [Event.send 0 "", .sleep 1, .send 1 "", .sleep 2, .send 2 "",
        .sleep 4]).length = 3 := by
  refine ⟨?_, by decide, by decide⟩
  simp [request, requestLoop, goInt64]

/-- C5: a 401, 404 or 422 response on the first attempt ends the call at
once for any positive retry budget, with the Authentication,
NotFound(endpoint) and Validation(body) errors respectively. -/
theorem c5_terminal_statuses_single_attempt (mr : Int) (hmr : 0 < mr)
    (endpoint body : String) (ra : Option String) (jsonBody : Option String) :
    request mr endpoint jsonBody (fun _ => .response 401 ra body) =
      ([.send 0 (jsonBody.getD "")], .error (.authentication "invalid API key")) ∧
    request mr endpoint jsonBody (fun _ => .response 404 ra body) =
      ([.send 0 (jsonBody.getD "")], .error (.notFound endpoint)) ∧
    request mr endpoint jsonBody (fun _ => .response 422 ra body) =
      ([.send 0 (jsonBody.getD "")], .error (.validation body)) := by
  have h0 : ((0 : Nat) : Int) < mr := by exact_mod_cast hmr
  refine ⟨?_, ?_, ?_⟩ <;>
    · rw [request, requestLoop.eq_def, dif_pos h0]
      norm_num

/-- C5 witness: the statement at maxRetries 3 for a 404 response. -/
theorem c5_terminal_statuses_witness :
    request 3 "/agents/alpha" (some "body-bytes")
        (fun _ => .response 404 none "missing") =
      ([.send 0 "body-bytes"], .error (.notFound "/agents/alpha")) :=
  (c5_terminal_statuses_single_attempt 3 (by decide) "/agents/alpha" "missing"
    none (some "body-bytes")).2.1

/-- C6: with maxRetries 3 and every attempt answered 429, the executor
performs exactly three attempts, sleeps the parsed Retry-After of the
first two responses between attempts, and ends with RateLimit carrying
the value parsed from the final response; parsing defaults to 1 for an
absent, empty or non-integer header and reads integers verbatim. -/
theorem c6_rate_limit_retry (h : Nat → Option String)
    (body endpoint : String) (jsonBody : Option String) :
    (sendsOf (request 3 endpoint jsonBody
        (fun n => .response 429 (h n) body)).1).length = 3 ∧
    sleepsOf (request 3 endpoint jsonBody
        (fun n => .response 429 (h n) body)).1 =
      [parseRetryAfter (h 0), parseRetryAfter (h 1)] ∧
    (request 3 endpoint jsonBody (fun n => .response 429 (h n) body)).2 =
      .error (.rateLimit (parseRetryAfter (h 2))) ∧
    parseRetryAfter none = 1 ∧
    parseRetryAfter (some "") = 1 ∧
    parseRetryAfter (some "soon") = 1 ∧
    parseRetryAfter (some "2.5") = 1 ∧
    parseRetryAfter (some "7") = 7 := by
  refine ⟨?_, ?_, ?_, by decide, by decide, by decide, by decide, by decide⟩ <;>
    simp [request, requestLoop, sendsOf, sleepsOf]

/-- C7: when the explicit APIKey and the BLACKROAD_API_KEY environment
variable are both empty, NewClient fails with the Authentication error
before any request machinery exists. -/
theorem c7_no_credential_construction_fails (env : String → String)
    (config : ClientConfig) (hc : config.APIKey = "")
    (he : env "BLACKROAD_API_KEY" = "") :
    NewClient env config =
      .error (.authentication "API key required. Set BLACKROAD_API_KEY environment variable or pass APIKey in config.") := by
  simp [NewClient, hc, he]

/-- C7 witness: a concrete empty environment and credential-free config. -/
theorem c7_no_credential_witness :
    NewClient (fun _ => "")
        { APIKey := "", BaseURL := "https://x/", Timeout := 9, MaxRetries := 5 } =
      .error (.authentication "API key required. Set BLACKROAD_API_KEY environment variable or pass APIKey in config.") :=
  c7_no_credential_construction_fails (fun _ => "")
    { APIKey := "", BaseURL := "https://x/", Timeout := 9, MaxRetries := 5 }
    rfl rfl

/-- C8 counterexample: with every environment variable other than the
key set to "120" and no explicit timeout or retry count, the resolved
client still uses the built-in 30-second timeout and 3 attempts (while
the base address does take the environment value), so no environment
variable takes precedence over the defaults for timeout or retry
count. -/
theorem c8_counterexample :
    NewClient (fun v => if v = "BLACKROAD_API_KEY" then "secret" else "120")
        { APIKey := "", BaseURL := "", Timeout := 0, MaxRetries := 0 } =
      .ok { apiKey := "secret", baseURL := "120",
            timeout := 30 * timeSecond, maxRetries := 3 } ∧
    (30 * timeSecond : Int) ≠ 120 ∧
    (30 * timeSecond : Int) ≠ 120 * timeSecond ∧
    (3 : Int) ≠ 120 := by
  exact ⟨by rfl, by decide, by decide, by decide⟩

/-- C8 amended: precedence explicit over environment over default holds
for the base address; credential is explicit over environment with no
default; timeout and retry count are explicit over built-in default (30
seconds, 3 attempts) with no environment fallback. -/
theorem c8_precedence (env : String → String) (config : ClientConfig)
    (c : Client) (h : NewClient env config = .ok c) :
    (config.APIKey ≠ "" → c.apiKey = config.APIKey) ∧
    (config.APIKey = "" → c.apiKey = env "BLACKROAD_API_KEY") ∧
    (config.BaseURL ≠ "" → c.baseURL = stringsTrimSuffix config.BaseURL "/") ∧
    (config.BaseURL = "" → env "BLACKROAD_API_URL" ≠ "" →
      c.baseURL = stringsTrimSuffix (env "BLACKROAD_API_URL") "/") ∧
    (config.BaseURL = "" → env "BLACKROAD_API_URL" = "" →
      c.baseURL = defaultBaseURL) ∧
    (config.Timeout ≠ 0 → c.timeout = config.Timeout) ∧
    (config.Timeout = 0 → c.timeout = 30 * timeSecond) ∧
    (config.MaxRetries ≠ 0 → c.maxRetries = config.MaxRetries) ∧
    (config.MaxRetries = 0 → c.maxRetries = defaultMaxRetries) := by
  have hc := NewClient_ok_fields env config c h
  subst hc
  refine ⟨?_, ?_, ?_, ?_, ?_, ?_, ?_, ?_, ?_⟩
  · intro h1; simp [h1]
  · intro h1; simp [h1]
  · intro h1; simp [pickBaseURL, h1]
  · intro h1 h2; simp [pickBaseURL, h1, h2]
  · intro h1 h2
    show stringsTrimSuffix (pickBaseURL env config) "/" = defaultBaseURL
    rw [pickBaseURL]
    simp only [h1, h2, if_pos, if_true]
    decide
  · intro h1; simp [h1]
  · intro h1
    show (if config.Timeout = 0 then defaultTimeout else config.Timeout) = 30 * timeSecond
    simp [h1, defaultTimeout]
  · intro h1; simp [h1]
  · intro h1; simp [h1]

/-- C8 witness: the default environment-free resolution. -/
theorem c8_precedence_witness :
    sampleClient.timeout = 30 * timeSecond ∧
    sampleClient.maxRetries = defaultMaxRetries ∧
    sampleClient.baseURL = defaultBaseURL ∧
    NewClient sampleEnv sampleConfig = .ok sampleClient := by
  have h := c8_precedence sampleEnv sampleConfig sampleClient (by rfl)
  exact ⟨h.2.2.2.2.2.2.1 rfl, h.2.2.2.2.2.2.2.2 rfl, h.2.2.2.2.1 rfl rfl, by rfl⟩

/-- C9 counterexample: an accepted explicit base address ending in a
doubled separator resolves to an address that still ends in a
separator, because only one trailing separator is trimmed. -/
theorem c9_counterexample :
    NewClient (fun _ => "")
        { APIKey := "k", BaseURL := "https://api.blackroad.io/v1//",
          Timeout := 0, MaxRetries := 0 } =
      .ok { apiKey := "k", baseURL := "https://api.blackroad.io/v1/",
            timeout := 30 * timeSecond, maxRetries := 3 } ∧
    goHasSuffix "https://api.blackroad.io/v1/" "/" = true := by
  exact ⟨by rfl, by decide⟩

/-- C9 amended: the resolved base address is the selected input with
exactly one trailing separator removed when present (an input ending in
a doubled separator keeps one); inputs without a trailing separator are
unchanged. -/
theorem c9_trim_one_separator (env : String → String) (config : ClientConfig)
    (c : Client) (h : NewClient env config = .ok c) :
    c.baseURL = stringsTrimSuffix (pickBaseURL env config) "/" ∧
    (∀ t : String, stringsTrimSuffix (t ++ "/") "/" = t) ∧
    (∀ s : String, goHasSuffix s "/" = false → stringsTrimSuffix s "/" = s) := by
  refine ⟨?_, ?_, ?_⟩
  · have hc := NewClient_ok_fields env config c h
    subst hc
    rfl
  · intro t
    have hdata : (t ++ "/").data = t.data ++ ['/'] := by
      simp [String.data_append]
    have hsuf : goHasSuffix (t ++ "/") "/" = true := by
      rw [goHasSuffix, hdata]
      simp [List.isSuffixOf_iff_suffix]
    rw [stringsTrimSuffix, if_pos hsuf, hdata]
    have hlen : (t.data ++ ['/']).length - ("/" : String).data.length
        = t.data.length := by simp
    rw [hlen]
    rw [List.take_left]
  · intro s hs
    simp [stringsTrimSuffix, hs]

/-- C9 witness: the amended statement at a doubled-separator input. -/
theorem c9_trim_one_separator_witness :
    ({ apiKey := "k", baseURL := "https://api.blackroad.io/v1/",
       timeout := 30 * timeSecond, maxRetries := 3 } : Client).baseURL =
      stringsTrimSuffix
        (pickBaseURL (fun _ => "")
          { APIKey := "k", BaseURL := "https://api.blackroad.io/v1//",
            Timeout := 0, MaxRetries := 0 }) "/" ∧
    stringsTrimSuffix ("https://api.blackroad.io/v1/" ++ "/") "/" =
      "https://api.blackroad.io/v1/" := by
  have h := c9_trim_one_separator (fun _ => "")
    { APIKey := "k", BaseURL := "https://api.blackroad.io/v1//",
      Timeout := 0, MaxRetries := 0 }
    { apiKey := "k", baseURL := "https://api.blackroad.io/v1/",
      timeout := 30 * timeSecond, maxRetries := 3 } (by rfl)
  exact ⟨h.1, h.2.1 "https://api.blackroad.io/v1/"⟩

/-- C10: a zero MaxRetries is replaced by the default 3 at construction;
a negative MaxRetries is stored unchanged, and a request on such a
client performs no attempt, no sleep, and returns the bare error with
message "max retries exceeded". -/
theorem c10_retry_budget :
    (∀ (env : String → String) (config : ClientConfig) (c : Client),
      NewClient env config = .ok c → config.MaxRetries = 0 →
        c.maxRetries = 3) ∧
    (∀ (env : String → String) (config : ClientConfig) (c : Client),
      NewClient env config = .ok c → config.MaxRetries < 0 →
        c.maxRetries = config.MaxRetries) ∧
    (∀ (mr : Int), mr < 0 → ∀ (endpoint : String) (jsonBody : Option String)
      (responder : Nat → AttemptOutcome),
      request mr endpoint jsonBody responder =
        ([], .error (.api "max retries exceeded" "" 0))) := by
  refine ⟨?_, ?_, ?_⟩
  · intro env config c h h0
    have hc := NewClient_ok_fields env config c h
    subst hc
    simp [h0, defaultMaxRetries]
  · intro env config c h hneg
    have hc := NewClient_ok_fields env config c h
    subst hc
    have hne : config.MaxRetries ≠ 0 := by omega
    simp [hne]
  · intro mr hneg endpoint jsonBody responder
    have hnl : ¬ (((0 : Nat) : Int) < mr) := by
      push_cast
      omega
    rw [request, requestLoop.eq_def, dif_neg hnl]
    rfl

/-- C10 witness: the three parts at concrete inputs. -/
theorem c10_retry_budget_witness :
    sampleClient.maxRetries = 3 ∧
    negRetryClient.maxRetries = -1 ∧
    request (-1) "/memory" none (fun _ => .transportError) =
      ([], .error (.api "max retries exceeded" "" 0)) := by
  refine ⟨c10_retry_budget.1 sampleEnv sampleConfig sampleClient (by rfl) rfl,
    c10_retry_budget.2.1 sampleEnv negRetryConfig negRetryClient (by rfl)
      (by decide),
    c10_retry_budget.2.2 (-1) (by decide) "/memory" none
      (fun _ => .transportError)⟩

end Blackroad

